import Mathlib

/-!
Verification development for the investor-analyze service (two locale
variants: `investor_analyze_zh.py` in Simplified Chinese and the unnamed
English-language copy).  The request pipeline is embedded shallowly:
JSON values are an inductive type, Python exceptions are an `Except`
error monad, the randomness source is an explicit stream of draws, and
the two external collaborators (the text-completion service and the
mail transport) are abstract inputs.
-/

namespace InvestorAnalyze

/-- A JSON value as delivered by `request.get_json`.  Numbers are
modelled as integers (the fields of interest are strings or small
integers). -/
inductive JVal where
  | null : JVal
  | bool : Bool → JVal
  | num : Int → JVal
  | str : String → JVal
  | arr : List JVal → JVal
  | obj : List (String × JVal) → JVal

/-- The Python exceptions that the embedded pipeline can raise. -/
inductive PyErr where
  | typeError : PyErr
  | attributeError : PyErr
  | valueError : PyErr
deriving DecidableEq

/-- Whether a JSON value is hashable as a Python object: `None`,
booleans, numbers and strings are hashable; lists and dicts are not
(using one as a `dict.get` key raises `TypeError`). -/
def hashable : JVal → Bool
  | .arr _ => false
  | .obj _ => false
  | _ => true

mutual

/-- Python `str()` of a JSON value, as interpolated by an f-string. -/
def pyStr : JVal → String
  | .null => "None"
  | .bool true => "True"
  | .bool false => "False"
  | .num n => toString n
  | .str s => s
  | .arr l => "[" ++ pyReprList l ++ "]"
  | .obj l => "\x7b" ++ pyReprObj l ++ "\x7d"

/-- Python `repr()` of a JSON value (used by `str()` on containers). -/
def pyRepr : JVal → String
  | .null => "None"
  | .bool true => "True"
  | .bool false => "False"
  | .num n => toString n
  | .str s => "\x27" ++ s ++ "\x27"
  | .arr l => "[" ++ pyReprList l ++ "]"
  | .obj l => "\x7b" ++ pyReprObj l ++ "\x7d"

/-- Comma-separated `repr`s of list elements. -/
def pyReprList : List JVal → String
  | [] => ""
  | [x] => pyRepr x
  | x :: xs => pyRepr x ++ ", " ++ pyReprList xs

/-- Comma-separated `repr`s of dict entries. -/
def pyReprObj : List (String × JVal) → String
  | [] => ""
  | [(k, v)] => "\x27" ++ k ++ "\x27: " ++ pyRepr v
  | (k, v) :: xs => "\x27" ++ k ++ "\x27: " ++ pyRepr v ++ ", " ++ pyReprObj xs

end

/-- A calendar date, as produced by `dateutil.parser.parse`. -/
structure SDate where
  year : Int
  month : Nat
  day : Nat

/-- `compute_age` from the source.  The permissive date parser is an
external collaborator, passed in as `parse`; a `None` result stands for
the `ValueError` it raises on an unparseable string.  A non-string
argument makes `parser.parse` raise `TypeError`; both exception kinds
are caught by the source's `except (ValueError, TypeError)` clause,
which returns 0. -/
def compute_age (parse : String → Option SDate) (today : SDate) (dob_str : JVal) : Int :=
  match dob_str with
  | .str s =>
    match parse s with
    | some birth_date =>
      today.year - birth_date.year -
        (if today.month < birth_date.month ∨
            (today.month = birth_date.month ∧ today.day < birth_date.day) then 1 else 0)
    | none => 0
  | _ => 0

/-- `random.randint(lo, hi)` consuming one raw draw `r`: an integer in
`[lo, hi]` inclusive. -/
def pyRandint (lo hi r : Nat) : Nat := lo + r % (hi - lo + 1)

/-- One metric category: a title and parallel label/value lists. -/
structure MetricCategory where
  title : String
  labels : List String
  values : List Nat

/-- `generate_chart_metrics` of the Chinese variant; `g` is the stream
of raw draws consumed left to right. -/
def generate_chart_metrics_zh (g : Nat → Nat) : List MetricCategory :=
  [ { title := "市场定位", labels := ["品牌认知", "客户契合", "声誉稳固"],
      values := [pyRandint 70 90 (g 0), pyRandint 65 85 (g 1), pyRandint 70 90 (g 2)] },
    { title := "投资者吸引力", labels := ["叙事信心", "规模化模型", "信任凭证"],
      values := [pyRandint 70 85 (g 3), pyRandint 60 80 (g 4), pyRandint 75 90 (g 5)] },
    { title := "战略执行力", labels := ["合作准备", "高端渠道", "领导形象"],
      values := [pyRandint 65 85 (g 6), pyRandint 65 85 (g 7), pyRandint 75 90 (g 8)] } ]

/-- `generate_chart_metrics` of the English variant: identical ranges,
English titles and labels. -/
def generate_chart_metrics_en (g : Nat → Nat) : List MetricCategory :=
  [ { title := "Market Positioning",
      labels := ["Brand Recall", "Client Fit Clarity", "Reputation Stickiness"],
      values := [pyRandint 70 90 (g 0), pyRandint 65 85 (g 1), pyRandint 70 90 (g 2)] },
    { title := "Investor Appeal",
      labels := ["Narrative Confidence", "Scalability Model", "Proof of Trust"],
      values := [pyRandint 70 85 (g 3), pyRandint 60 80 (g 4), pyRandint 75 90 (g 5)] },
    { title := "Strategic Execution",
      labels := ["Partnership Readiness", "Premium Channel Leverage", "Leadership Presence"],
      values := [pyRandint 65 85 (g 6), pyRandint 65 85 (g 7), pyRandint 75 90 (g 8)] } ]

/-- The fixed bar palette (`colors` in `generate_chart_html`), shared by
both variants. -/
def chart_colors : List String := ["#8C52FF", "#5E9CA0", "#F2A900"]

/-- The category title line emitted by `generate_chart_html`. -/
def chart_title_html (title : String) : String :=
  "<strong style=\x27font-size:18px;color:#333;\x27>" ++ title ++ "</strong><br>"

/-- One bar row of `generate_chart_html`: label, track-and-fill bar
whose fill width is the value, trailing percentage; `j` is the slot
index within the category.  The label-span width is the only difference
between the two variants (`120px` vs `180px`). -/
def chart_row_html (label_width label : String) (val : Nat) (j : Nat) : String :=
  "<div style=\x27display:flex;align-items:center;margin-bottom:8px;\x27>" ++
  "<span style=\x27width:" ++ label_width ++ "; font-size: 15px;\x27>" ++ label ++ "</span>" ++
  "<div style=\x27flex:1;background:#eee;border-radius:5px;overflow:hidden;\x27>" ++
  "<div style=\x27width:" ++ toString val ++ "%;height:14px;background:" ++
  chart_colors.getD (j % chart_colors.length) "" ++ ";\x27></div></div>" ++
  "<span style=\x27margin-left:10px; font-size: 15px;\x27>" ++ toString val ++ "%</span></div>"

/-- `generate_chart_html`: for each category a title line, then one row
per `zip(labels, values)` pair (with its enumeration index), then a
`<br>`. -/
def generate_chart_html (label_width : String) (metrics : List MetricCategory) : String :=
  metrics.foldl
    (fun html metric =>
      (((metric.labels.zip metric.values).enum).foldl
        (fun h x => h ++ chart_row_html label_width x.2.1 x.2.2 x.1)
        (html ++ chart_title_html metric.title)) ++ "<br>")
    ""

/-- Label-span width of the Chinese variant. -/
def label_width_zh : String := "120px"

/-- Label-span width of the English variant. -/
def label_width_en : String := "180px"

/-- `dict.get(k, dflt)` on a literal string-keyed map, with a JSON key.
An unhashable key (list or dict) raises `TypeError`; any other
non-string key is simply absent, so the default is returned. -/
def pyMapGet (m : List (String × String)) (k : JVal) (dflt : String) : Except PyErr String :=
  if hashable k then
    match k with
    | .str s => .ok ((m.lookup s).getD dflt)
    | _ => .ok dflt
  else .error .typeError

/-- Python `.lower()`: defined on strings, `AttributeError` otherwise. -/
def pyLowerStr : JVal → Except PyErr String
  | .str s => .ok s.toLower
  | _ => .error .attributeError

/-- `random.choice(lst)` consuming one raw draw `r`. -/
def pyChoice (l : List String) (r : Nat) : String := l.getD (r % l.length) ""

/-- `industry_map` of the Chinese variant. -/
def zh_industry_map : List (String × String) :=
  [ ("保险", "竞争激烈的保险领域"), ("房地产", "充满活力的房地产市场"),
    ("金融", "高风险的金融世界"), ("科技", "快速发展的科技行业"),
    ("制造业", "基础稳固的制造业"), ("教育", "富有影响力的教育领域"),
    ("医疗保健", "至关重要的医疗保健行业") ]

/-- `challenge_narrative_map` of the Chinese variant. -/
def zh_challenge_map : List (String × String) :=
  [ ("寻求新资金", "寻求新资本以驱动下一阶段的增长"),
    ("扩张策略不明", "规划一条清晰且具防御性的扩张路径"),
    ("投资信心不足", "为投资者建立一个令人信服且有证据支持的案例"),
    ("品牌定位薄弱", "强化品牌叙事和市场定位的战略要务") ]

/-- `industry_map` of the English variant. -/
def en_industry_map : List (String × String) :=
  [ ("Insurance", "the competitive insurance landscape"),
    ("Real Estate", "the dynamic real estate market"),
    ("Finance", "the high-stakes world of finance"),
    ("Technology", "the fast-evolving technology sector"),
    ("Manufacturing", "the foundational manufacturing industry"),
    ("Education", "the impactful field of education"),
    ("Healthcare", "the vital healthcare sector") ]

/-- `challenge_narrative_map` of the English variant. -/
def en_challenge_map : List (String × String) :=
  [ ("Need New Funding", "the pursuit of fresh capital to fuel the next stage of growth"),
    ("Unclear Expansion Strategy", "the task of charting a clear and defensible path for expansion"),
    ("Lack of Investor Confidence", "the challenge of building a compelling and evidence-backed case for investors"),
    ("Weak Brand Positioning", "the strategic imperative to sharpen the brand\x27s narrative and market position") ]

/-- `industry_narrative` of the Chinese variant. -/
def zh_industry_narrative (industry : JVal) : Except PyErr String :=
  pyMapGet zh_industry_map industry ("于 " ++ pyStr industry ++ " 领域")

/-- `challenge_narrative` of the Chinese variant. -/
def zh_challenge_narrative (challenge : JVal) : Except PyErr String :=
  pyMapGet zh_challenge_map challenge ("解决 " ++ pyStr challenge ++ " 的主要挑战")

/-- `industry_narrative` of the English variant. -/
def en_industry_narrative (industry : JVal) : Except PyErr String :=
  pyMapGet en_industry_map industry ("the field of " ++ pyStr industry)

/-- `challenge_narrative` of the English variant.  Python evaluates the
default argument `f"... {challenge.lower()}"` before calling `.get`, so
a non-string challenge raises `AttributeError` even when the lookup
would have succeeded. -/
def en_challenge_narrative (challenge : JVal) : Except PyErr String := do
  let low ← pyLowerStr challenge
  pyMapGet en_challenge_map challenge ("addressing the primary challenge of " ++ low)

/-- `opening_templates` of the Chinese variant. -/
def zh_opening_templates (age : Int) (experience country : JVal)
    (industry_narrative : String) : List String :=
  [ "对于一位在" ++ pyStr country ++ industry_narrative ++ "深耕约" ++ pyStr experience ++
      "年的专业人士而言，到达战略十字路口不仅是常态，更是雄心的体现。",
    "一位拥有" ++ pyStr experience ++ "年" ++ pyStr country ++ industry_narrative ++
      "经验的专业人士，其职业生涯是适应能力和专业知识的明证，并自然地引向关键的转折与反思时刻。",
    "在" ++ toString age ++ "岁的年纪，于" ++ pyStr country ++ "的" ++ industry_narrative ++
      "导航" ++ pyStr experience ++ "年，培养了独特的视角，尤其是在面对职业成长的下一阶段时。" ]

/-- `opening_templates` of the English variant. -/
def en_opening_templates (age : Int) (experience country : JVal)
    (industry_narrative : String) : List String :=
  [ "For a professional with around " ++ pyStr experience ++ " years of dedication in " ++
      industry_narrative ++ " within " ++ pyStr country ++
      ", arriving at a strategic crossroads is not just common; it\x27s a sign of ambition.",
    "A career spanning " ++ pyStr experience ++ " years in " ++ pyStr country ++ "\x27s " ++
      industry_narrative ++
      " is a clear testament to adaptability and expertise. This journey naturally leads to pivotal moments of reflection.",
    "Navigating " ++ industry_narrative ++ " in " ++ pyStr country ++ " for " ++
      pyStr experience ++
      " years cultivates a unique perspective, especially when confronting the next phase of professional growth at an age of " ++
      toString age ++ "." ]

/-- The `<p>` opening tag shared by the four summary paragraphs. -/
def summary_p_open : String :=
  "<p style=\x27line-height:1.7; text-align:justify; margin-bottom: 1em;\x27>"

/-- The summary heading of the Chinese variant. -/
def zh_summary_header : String :=
  "<br><div style=\x27font-size:24px;font-weight:bold;\x27>🧠 战略摘要</div><br>"

/-- The summary heading of the English variant. -/
def en_summary_header : String :=
  "<br><div style=\x27font-size:24px;font-weight:bold;\x27>🧠 Strategic Summary:</div><br>"

/-- Tail of the first Chinese summary paragraph (everything after the
chosen opening sentence): interpolates the challenge narrative and the
three category-1 values brand / fit / stick. -/
def zh_p1_tail (challenge_narrative : String) (brand fit stick : Nat) : String :=
  " 这份报告反映了一个关键时刻，其焦点转向" ++
  challenge_narrative ++ "。数据显示，拥有此背景的专业人士具备" ++ toString brand ++
  "%的强大品牌认知，意味着已建立一定的市场影响力。 " ++
  "然而，分析也指出了一个机会：需要提升价值主张的清晰度（客户契合度为" ++ toString fit ++
  "%），并确保其专业声誉具有持久的影响力（声誉稳固性为" ++ toString stick ++
  "%）。目标是从简单的被认知，过渡到能产生共鸣的影响力。</p>"

/-- First Chinese summary paragraph: the chosen opening sentence is its
lead, followed by `zh_p1_tail`. -/
def zh_paragraph1 (chosen_opening challenge_narrative : String)
    (brand fit stick : Nat) : String :=
  (summary_p_open ++ chosen_opening) ++ zh_p1_tail challenge_narrative brand fit stick

/-- Second Chinese summary paragraph: interpolates the country and the
three category-2 values conf / scale / trust. -/
def zh_paragraph2 (country : JVal) (conf scale trust : Nat) : String :=
  summary_p_open ++ "在" ++ pyStr country ++ "的投资环境中，一个引人入胜的故事至关重要。" ++
  toString conf ++ "%的叙事信心表明，该人士的核心专业叙事元素是强有力的。关键似乎在于解决规模化模型的问题，目前为" ++
  toString scale ++ "%。 " ++
  "这表明，优化“如何做”——即阐明一个清晰、可复制的增长模型——可能会显著提升投资者吸引力。令人鼓舞的是，" ++
  toString trust ++ "%的信任凭证得分显示，过往的记录是坚实的资产，为构建未来引人注目的叙事提供了信誉基础。</p>"

/-- Third Chinese summary paragraph: interpolates the three category-3
values partn / premium / leader. -/
def zh_paragraph3 (partn premium leader : Nat) : String :=
  summary_p_open ++ "战略的最终评判标准是执行力。" ++ toString partn ++
  "%的合作准备得分，标志着强大的协作能力——这是吸引特定类型高水平合作伙伴或投资者时的关键要素。 " ++
  "此外，" ++ toString premium ++ "%的高端渠道使用率揭示了提升品牌定位的未开发潜力。再加上" ++
  toString leader ++
  "%的稳固领导形象，信息非常明确：具备这样背景的专业人士已被视为可信。下一步是战略性地占据能反映其全部价值的高影响力空间。</p>"

/-- Fourth Chinese summary paragraph: fixed text, no interpolation. -/
def zh_paragraph4 : String :=
  summary_p_open ++ "将这样的资料与新加坡、马来西亚和台湾的同行进行基准比较，不仅是衡量现状，更是为了揭示战略优势。 " ++
  "数据表明，驱动这一战略焦点的专业直觉通常是正确的。对于处于此阶段的专业人士来说，前进的道路通常在于信息、模型和市场的精准对齐。本分析可作为一个框架，为这类专业人士将当前势头转化为决定性突破提供所需的清晰度。</p>"

/-- `build_dynamic_summary` of the Chinese variant.  The unpacking of
`metrics[0..2]["values"]` into `brand, fit, stick` / `conf, scale,
trust` / `partn, premium, leader` raises unless each list has exactly 3
elements. -/
def build_dynamic_summary_zh (age : Int) (experience industry country : JVal)
    (metrics : List MetricCategory) (challenge context target_profile : JVal)
    (r : Nat) : Except PyErr String := do
  let industry_narrative ← zh_industry_narrative industry
  let challenge_narrative ← zh_challenge_narrative challenge
  let chosen_opening := pyChoice (zh_opening_templates age experience country industry_narrative) r
  match metrics with
  | [m1, m2, m3] =>
    match m1.values, m2.values, m3.values with
    | [brand, fit, stick], [conf, scale, trust], [partn, premium, leader] =>
      .ok (zh_summary_header ++
        zh_paragraph1 chosen_opening challenge_narrative brand fit stick ++
        zh_paragraph2 country conf scale trust ++
        zh_paragraph3 partn premium leader ++
        zh_paragraph4)
    | _, _, _ => .error .valueError
  | _ => .error .valueError

/-- Tail of the first English summary paragraph (everything after the
chosen opening sentence): interpolates the challenge narrative and the
three category-1 values brand / fit / stick. -/
def en_p1_tail (challenge_narrative : String) (brand fit stick : Nat) : String :=
  " This profile reflects a pivotal moment where the focus shifts towards " ++
  challenge_narrative ++ ". The data indicates a strong Brand Recall of " ++
  toString brand ++ "%, suggesting an established market presence. " ++
  "However, the analysis also points to an opportunity: to sharpen the clarity of the value proposition (Client Fit Clarity at " ++
  toString fit ++ "%) and ensure the professional\x27s reputation has lasting impact (Reputation Stickiness at " ++
  toString stick ++ "%). The objective is to transition from simple recognition to resonant influence.</p>"

/-- First English summary paragraph: the chosen opening sentence is its
lead, followed by `en_p1_tail`. -/
def en_paragraph1 (chosen_opening challenge_narrative : String)
    (brand fit stick : Nat) : String :=
  (summary_p_open ++ chosen_opening) ++ en_p1_tail challenge_narrative brand fit stick

/-- Second English summary paragraph: interpolates the country and the
three category-2 values conf / scale / trust. -/
def en_paragraph2 (country : JVal) (conf scale trust : Nat) : String :=
  summary_p_open ++ "In the " ++ pyStr country ++
  " investment climate, a compelling story is paramount. A Narrative Confidence benchmarked at " ++
  toString conf ++ "% reveals that the core elements of the professional narrative are powerful. The key appears to be addressing the Scalability Model, currently at " ++
  toString scale ++ "%. " ++
  "This suggests that refining the \x27how\x27—articulating a clear, repeatable model for growth—could significantly boost investor appeal. Encouragingly, a " ++
  toString trust ++ "% score in Proof of Trust shows the track record is a solid asset, providing the credibility upon which compelling future narratives can be built.</p>"

/-- Third English summary paragraph: interpolates the three category-3
values partn / premium / leader. -/
def en_paragraph3 (partn premium leader : Nat) : String :=
  summary_p_open ++ "Strategy is ultimately judged by execution. A Partnership Readiness score of " ++
  toString partn ++ "% signals a strong capacity for collaboration—a crucial element when the objective is to attract a specific class of high-caliber partners or investors. " ++
  "Furthermore, a " ++ toString premium ++
  "% in Premium Channel Leverage reveals an untapped potential to elevate the brand\x27s positioning. Paired with a robust Leadership Presence of " ++
  toString leader ++ "%, the message is clear: this type of profile is already viewed as credible. The next step is to strategically occupy high-influence spaces that reflect the full value of the work.</p>"

/-- Fourth English summary paragraph: fixed text, no interpolation. -/
def en_paragraph4 : String :=
  summary_p_open ++ "Benchmarking a profile like this against peers across Singapore, Malaysia, and Taiwan doesn\x27t just measure a current standing—it illuminates a strategic advantage. " ++
  "The data suggests that the professional instincts driving this strategic focus are often well-founded. For professionals at this stage, the path forward typically lies in a precise alignment of message, model, and market. This analysis serves as a framework, providing the clarity needed to turn current momentum into a definitive breakthrough.</p>"

/-- `build_dynamic_summary` of the English variant. -/
def build_dynamic_summary_en (age : Int) (experience industry country : JVal)
    (metrics : List MetricCategory) (challenge context target_profile : JVal)
    (r : Nat) : Except PyErr String := do
  let industry_narrative ← en_industry_narrative industry
  let challenge_narrative ← en_challenge_narrative challenge
  let chosen_opening := pyChoice (en_opening_templates age experience country industry_narrative) r
  match metrics with
  | [m1, m2, m3] =>
    match m1.values, m2.values, m3.values with
    | [brand, fit, stick], [conf, scale, trust], [partn, premium, leader] =>
      .ok (en_summary_header ++
        en_paragraph1 chosen_opening challenge_narrative brand fit stick ++
        en_paragraph2 country conf scale trust ++
        en_paragraph3 partn premium leader ++
        en_paragraph4)
    | _, _, _ => .error .valueError
  | _ => .error .valueError

/-- Worker for `pySplitlines`: accumulates the current line (reversed)
and splits at `\n`, `\r\n` and `\r`; a trailing line terminator does
not produce a final empty line, matching Python `str.splitlines`. -/
def pySplitlinesGo : List Char → List Char → List String
  | [], acc => if acc.isEmpty then [] else [String.mk acc.reverse]
  | '\r' :: '\n' :: rest, acc => String.mk acc.reverse :: pySplitlinesGo rest []
  | '\n' :: rest, acc => String.mk acc.reverse :: pySplitlinesGo rest []
  | '\r' :: rest, acc => String.mk acc.reverse :: pySplitlinesGo rest []
  | c :: rest, acc => pySplitlinesGo rest (c :: acc)

/-- Python `str.splitlines` (restricted to the `\n`, `\r\n`, `\r`
terminators; the service's collaborator responses use `\n`). -/
def pySplitlines (s : String) : List String := pySplitlinesGo s.data []

/-- ASCII whitespace as stripped by Python `str.strip()`. -/
def pyIsSpace (c : Char) : Bool :=
  c == ' ' || c == '\t' || c == '\n' || c == '\r' || c == '\x0b' || c == '\x0c'

/-- Python `str.strip()`: drop leading and trailing whitespace. -/
def pyStrip (s : String) : String :=
  String.mk ((s.data.dropWhile pyIsSpace).reverse.dropWhile pyIsSpace).reverse

/-- The `<p>` opening tag wrapping each tip line (identical in both
variants). -/
def tips_p_open : String :=
  "<p style=\x27font-size:16px; line-height:1.6; margin-bottom: 1em;\x27>"

/-- The tip-paragraph join from the route body: every non-blank line of
the collaborator response, trimmed and wrapped in its own paragraph, in
received order. -/
def tips_paragraphs (tips_text : String) : String :=
  String.join (((pySplitlines tips_text).filter (fun line => !(pyStrip line).isEmpty)).map
    (fun line => tips_p_open ++ pyStrip line ++ "</p>"))

/-- Tips heading of the Chinese variant. -/
def zh_tips_header : String :=
  "<br><div style=\x27font-size:24px;font-weight:bold;\x27>💡 创新建议</div><br>"

/-- Fallback tips paragraph of the Chinese variant. -/
def zh_tips_fallback : String :=
  "<p style=\x27color:red;\x27>⚠️ 暂时无法生成创新建议。</p>"

/-- Tips heading of the English variant. -/
def en_tips_header : String :=
  "<br><div style=\x27font-size:24px;font-weight:bold;\x27>💡 Creative Tips:</div><br>"

/-- Fallback tips paragraph of the English variant. -/
def en_tips_fallback : String :=
  "<p style=\x27color:red;\x27>⚠️ Creative tips could not be generated at this time.</p>"

/-- The `tips_block` computation of the Chinese route: `None` (failed or
unconfigured collaborator) and the empty string (falsy in Python) both
yield the fallback paragraph. -/
def tips_block_zh : Option String → String
  | some tips_text =>
    if tips_text.isEmpty then zh_tips_fallback
    else zh_tips_header ++ tips_paragraphs tips_text
  | none => zh_tips_fallback

/-- The `tips_block` computation of the English route. -/
def tips_block_en : Option String → String
  | some tips_text =>
    if tips_text.isEmpty then en_tips_fallback
    else en_tips_header ++ tips_paragraphs tips_text
  | none => en_tips_fallback

/-- The 14 extracted request fields (raw JSON values; a missing key has
been replaced by the `"N/A"` default of `dict.get`). -/
structure Submission where
  fullName : JVal
  chineseName : JVal
  dob : JVal
  contactNumber : JVal
  company : JVal
  role : JVal
  country : JVal
  experience : JVal
  industry : JVal
  challenge : JVal
  context : JVal
  targetProfile : JVal
  advisor : JVal
  email : JVal

/-- `data.get(key, dflt)` on the request mapping. -/
def pyGet (data : List (String × JVal)) (key : String) (dflt : JVal) : JVal :=
  (data.lookup key).getD dflt

/-- The `"N/A"` default passed to every `data.get` call. -/
def NA : JVal := JVal.str ("N/A")

/-- The data-extraction block of the route (identical in both
variants): each of the 14 recognized keys via `data.get(key, "N/A")`. -/
def extract_submission (data : List (String × JVal)) : Submission :=
  { fullName := pyGet data ("fullName") NA
    chineseName := pyGet data ("chineseName") NA
    dob := pyGet data ("dob") NA
    contactNumber := pyGet data ("contactNumber") NA
    company := pyGet data ("company") NA
    role := pyGet data ("role") NA
    country := pyGet data ("country") NA
    experience := pyGet data ("experience") NA
    industry := pyGet data ("industry") NA
    challenge := pyGet data ("challenge") NA
    context := pyGet data ("context") NA
    targetProfile := pyGet data ("targetProfile") NA
    advisor := pyGet data ("advisor") NA
    email := pyGet data ("email") NA }

/-- An HTTP response: status code and JSON-object body. -/
structure Response where
  status : Nat
  body : List (String × JVal)

/-- The request handed to the mail-sending collaborator. -/
structure EmailReq where
  body : String
  subject : String

/-- What one invocation of the route produces: the HTTP response and
the email dispatch, if one was made. -/
structure HandlerResult where
  response : Response
  email : Option EmailReq

/-- The 500 response produced by the route's `except` clause. -/
def internal_error_response : Response :=
  { status := 500, body := [(("error"), JVal.str ("An internal server error occurred."))] }

/-- `request.get_json(force=True)` followed by the first `data.get`:
an unparseable body raises inside the `try`, and a parseable non-object
body makes `data.get` raise `AttributeError`. -/
def pyGetData : Except Unit JVal → Except PyErr (List (String × JVal))
  | .error _ => .error .valueError
  | .ok (.obj data) => .ok data
  | .ok _ => .error .attributeError

/-- `title` of the Chinese route. -/
def title_zh : String :=
  "<h4 style=\x27text-align:center;font-size:24px;\x27>🎯 AI 战略洞察</h4>"

/-- `title` of the English route. -/
def title_en : String :=
  "<h4 style=\x27text-align:center;font-size:24px;\x27>🎯 AI Strategic Insight</h4>"

/-- `footer` of the Chinese route. -/
def footer_zh : String :=
  "<div style=\x27background-color:#f9f9f9;color:#333;padding:20px;border-left:6px solid #8C52FF; border-radius:8px;margin-top:30px;\x27>" ++
  "<strong>📊 AI 洞察来源:</strong><ul style=\x27margin-top:10px;margin-bottom:10px;padding-left:20px;line-height:1.7;\x27>" ++
  "<li>来自新加坡、马来西亚和台湾的匿名专业人士数据</li>" ++
  "<li>来自 OpenAI 和全球市场的投资者情绪模型及趋势基准</li></ul>" ++
  "<p style=\x27margin-top:10px;line-height:1.7;\x27>所有数据均符合个人数据保护法(PDPA)且不会被储存。我们的 AI 系统在检测具统计意义的模式时，不会引用任何个人记录。</p>" ++
  "<p style=\x27margin-top:10px;line-height:1.7;\x27><strong>附言:</strong> 这份初步洞察仅仅是个开始。一份更个性化、数据更具体的报告——反映您提供的完整信息——将在 <strong>24 至 48 小时</strong> 内准备并发送到收件人的邮箱。" ++
  "这将使我们的 AI 系统能够将您的资料与细微的区域和行业特定基准进行交叉引用，确保提供针对确切挑战的更精准建议。" ++
  "如果希望尽快进行对话，我们很乐意在您方便的时间安排一次 <strong>15 分钟的通话</strong>。 🎯</p></div>"

/-- `footer` of the English route. -/
def footer_en : String :=
  "<div style=\x27background-color:#f9f9f9;color:#333;padding:20px;border-left:6px solid #8C52FF; border-radius:8px;margin-top:30px;\x27>" ++
  "<strong>📊 AI Insights Generated From:</strong><ul style=\x27margin-top:10px;margin-bottom:10px;padding-left:20px;line-height:1.7;\x27>" ++
  "<li>Data from anonymized professionals across Singapore, Malaysia, and Taiwan</li>" ++
  "<li>Investor sentiment models & trend benchmarks from OpenAI and global markets</li></ul>" ++
  "<p style=\x27margin-top:10px;line-height:1.7;\x27>All data is PDPA-compliant and is not stored. Our AI systems detect statistically significant patterns without referencing any individual record.</p>" ++
  "<p style=\x27margin-top:10px;line-height:1.7;\x27><strong>PS:</strong> This initial insight is just the beginning. A more personalized, data-specific report — reflecting the full details provided — will be prepared and delivered to the recipient\x27s inbox within <strong>24 to 48 hours</strong>. " ++
  "This allows our AI systems to cross-reference the profile with nuanced regional and sector-specific benchmarks, ensuring sharper recommendations tailored to the exact challenge. " ++
  "If a conversation is desired sooner, we would be glad to arrange a <strong>15-minute call</strong> at a convenient time. 🎯</p></div>"

/-- `details_html` of the Chinese route: the labeled submission-details
block, all 14 fields. -/
def details_zh (s : Submission) : String :=
  "<br><div style=\x27font-size:14px;color:#333;line-height:1.6;\x27>" ++
  "<h3 style=\x27font-size:16px;\x27>📝 提交摘要</h3>" ++
  "<strong>英文姓名:</strong> " ++ pyStr s.fullName ++ "<br>" ++
  "<strong>中文姓名:</strong> " ++ pyStr s.chineseName ++ "<br>" ++
  "<strong>出生日期:</strong> " ++ pyStr s.dob ++ "<br>" ++
  "<strong>联系电话:</strong> " ++ pyStr s.contactNumber ++ "<br>" ++
  "<strong>国家/地区:</strong> " ++ pyStr s.country ++ "<br>" ++
  "<strong>公司名称:</strong> " ++ pyStr s.company ++ "<br>" ++
  "<strong>当前职位:</strong> " ++ pyStr s.role ++ "<br>" ++
  "<strong>经验年限:</strong> " ++ pyStr s.experience ++ "<br>" ++
  "<strong>所属行业:</strong> " ++ pyStr s.industry ++ "<br>" ++
  "<strong>主要挑战:</strong> " ++ pyStr s.challenge ++ "<br>" ++
  "<strong>背景简介:</strong> " ++ pyStr s.context ++ "<br>" ++
  "<strong>目标画像:</strong> " ++ pyStr s.targetProfile ++ "<br>" ++
  "<strong>推荐人:</strong> " ++ pyStr s.advisor ++ "<br>" ++
  "<strong>电子邮箱:</strong> " ++ pyStr s.email ++ "</div><hr>"

/-- `details_html` of the English route. -/
def details_en (s : Submission) : String :=
  "<br><div style=\x27font-size:14px;color:#333;line-height:1.6;\x27>" ++
  "<h3 style=\x27font-size:16px;\x27>📝 Submission Summary</h3>" ++
  "<strong>English Name:</strong> " ++ pyStr s.fullName ++ "<br>" ++
  "<strong>Chinese Name:</strong> " ++ pyStr s.chineseName ++ "<br>" ++
  "<strong>DOB:</strong> " ++ pyStr s.dob ++ "<br>" ++
  "<strong>Contact Number:</strong> " ++ pyStr s.contactNumber ++ "<br>" ++
  "<strong>Country:</strong> " ++ pyStr s.country ++ "<br>" ++
  "<strong>Company:</strong> " ++ pyStr s.company ++ "<br>" ++
  "<strong>Role:</strong> " ++ pyStr s.role ++ "<br>" ++
  "<strong>Years of Experience:</strong> " ++ pyStr s.experience ++ "<br>" ++
  "<strong>Industry:</strong> " ++ pyStr s.industry ++ "<br>" ++
  "<strong>Challenge:</strong> " ++ pyStr s.challenge ++ "<br>" ++
  "<strong>Context:</strong> " ++ pyStr s.context ++ "<br>" ++
  "<strong>Target Profile:</strong> " ++ pyStr s.targetProfile ++ "<br>" ++
  "<strong>Referrer:</strong> " ++ pyStr s.advisor ++ "<br>" ++
  "<strong>Email:</strong> " ++ pyStr s.email ++ "</div><hr>"

/-- The `<h1>` heading prepended to the Chinese email body. -/
def email_heading_zh : String := "<h1>新的投资者洞察提交</h1>"

/-- The `<h1>` heading prepended to the English email body. -/
def email_heading_en : String := "<h1>New Investor Insight Submission</h1>"

/-- The email subject of the Chinese route. -/
def subject_zh (full_name : JVal) : String := "新的投资者洞察: " ++ pyStr full_name

/-- The email subject of the English route. -/
def subject_en (full_name : JVal) : String := "New Investor Insight: " ++ pyStr full_name

/-- The `/investor_analyze` route of the Chinese variant.  Inputs:
the parsed request body (`Except Unit JVal`, error for an unparseable
body), the external date parser, the process-wide `today`, the raw
randomness stream `g` (draws 0–8 feed the metric generator and draw 9
the opening-template choice), and the text-completion collaborator's
stripped response.  The `try`/`except` of the source catches every
exception raised inside and maps it to the fixed 500 response; the
only fallible stages are body access and `build_dynamic_summary`. -/
def investor_analyze_zh (body : Except Unit JVal) (parse : String → Option SDate)
    (today : SDate) (g : Nat → Nat) (tips_text : Option String) : HandlerResult :=
  match pyGetData body with
  | .error _ => { response := internal_error_response, email := none }
  | .ok data =>
    let s := extract_submission data
    let age := compute_age parse today s.dob
    let chart_metrics := generate_chart_metrics_zh g
    let chart_html := generate_chart_html label_width_zh chart_metrics
    match build_dynamic_summary_zh age s.experience s.industry s.country chart_metrics
        s.challenge s.context s.targetProfile (g 9) with
    | .error _ => { response := internal_error_response, email := none }
    | .ok summary_html =>
      let tips_block := tips_block_zh tips_text
      let details_html := details_zh s
      let email_html := email_heading_zh ++ details_html ++ title_zh ++ chart_html ++
        summary_html ++ tips_block ++ footer_zh
      let display_html := title_zh ++ chart_html ++ summary_html ++ tips_block ++ footer_zh
      { response := { status := 200, body := [(("html_result"), JVal.str display_html)] },
        email := some { body := email_html, subject := subject_zh s.fullName } }

/-- The `/investor_analyze` route of the English variant. -/
def investor_analyze_en (body : Except Unit JVal) (parse : String → Option SDate)
    (today : SDate) (g : Nat → Nat) (tips_text : Option String) : HandlerResult :=
  match pyGetData body with
  | .error _ => { response := internal_error_response, email := none }
  | .ok data =>
    let s := extract_submission data
    let age := compute_age parse today s.dob
    let chart_metrics := generate_chart_metrics_en g
    let chart_html := generate_chart_html label_width_en chart_metrics
    match build_dynamic_summary_en age s.experience s.industry s.country chart_metrics
        s.challenge s.context s.targetProfile (g 9) with
    | .error _ => { response := internal_error_response, email := none }
    | .ok summary_html =>
      let tips_block := tips_block_en tips_text
      let details_html := details_en s
      let email_html := email_heading_en ++ details_html ++ title_en ++ chart_html ++
        summary_html ++ tips_block ++ footer_en
      let display_html := title_en ++ chart_html ++ summary_html ++ tips_block ++ footer_en
      { response := { status := 200, body := [(("html_result"), JVal.str display_html)] },
        email := some { body := email_html, subject := subject_en s.fullName } }

/-- Whether a JSON value is a Python `str`. -/
def isStr : JVal → Bool
  | .str _ => true
  | _ => false

/-- The nine per-slot inclusive ranges declared by the specification,
category by category. -/
def slot_ranges : List (List (Nat × Nat)) :=
  [ [(70, 90), (65, 85), (70, 90)],
    [(70, 85), (60, 80), (75, 90)],
    [(65, 85), (65, 85), (75, 90)] ]

/-- The 14 request keys the extractor recognizes, in source order. -/
def recognized_keys : List String :=
  [ "fullName", "chineseName", "dob", "contactNumber", "company", "role", "country",
    "experience", "industry", "challenge", "context", "targetProfile", "advisor", "email" ]

/-- The extracted record as an ordered list of its 14 field values. -/
def submission_fields (s : Submission) : List JVal :=
  [ s.fullName, s.chineseName, s.dob, s.contactNumber, s.company, s.role, s.country,
    s.experience, s.industry, s.challenge, s.context, s.targetProfile, s.advisor, s.email ]

/-- A concrete permissive parser for the age-calculator witness. -/
def c2parse : String → Option SDate :=
  fun s => if s = "1990-05-20" then some ⟨1990, 5, 20⟩ else none

section Helpers

/-- `random.randint` stays inside its inclusive range. -/
theorem pyRandint_bounds (r : Nat) {lo hi : Nat} (h : lo ≤ hi) :
    lo ≤ pyRandint lo hi r ∧ pyRandint lo hi r ≤ hi := by
  have hm : r % (hi - lo + 1) < hi - lo + 1 := Nat.mod_lt r (by omega)
  unfold pyRandint
  omega

/-- Appending on the right preserves non-emptiness. -/
theorem append_ne_empty_left (a b : String) (h : a ≠ "") : a ++ b ≠ "" := by
  intro hab
  apply h
  have hd := congrArg String.data hab
  simp only [String.data_append] at hd
  rcases List.append_eq_nil.mp hd with ⟨h1, _⟩
  cases a
  simp_all

/-- Folding string append from an arbitrary accumulator. -/
theorem foldl_string_append (l : List String) (a : String) :
    l.foldl (fun r s => r ++ s) a = a ++ String.join l := by
  induction l generalizing a with
  | nil => simp [String.join, String.append_empty]
  | cons x xs ih =>
    simp only [String.join, List.foldl_cons] at *
    rw [ih (a ++ x), ih ("" ++ x), String.empty_append, String.append_assoc]

/-- `String.join` of a cons. -/
theorem string_join_cons (x : String) (l : List String) :
    String.join (x :: l) = x ++ String.join l := by
  show (x :: l).foldl (fun r s => r ++ s) "" = _
  rw [List.foldl_cons, String.empty_append, foldl_string_append]

/-- A fold that appends `f x` for each element is the accumulator
followed by the joined images. -/
theorem foldl_append_map {α : Type} (f : α → String) (l : List α) (a : String) :
    l.foldl (fun h x => h ++ f x) a = a ++ String.join (l.map f) := by
  induction l generalizing a with
  | nil => simp [String.join, String.append_empty]
  | cons x xs ih =>
    rw [List.foldl_cons, ih, List.map_cons, string_join_cons, String.append_assoc]

end Helpers


/-- C1: the metric generator always produces exactly 3 categories, each
with exactly 3 labels and 3 values, the category order, titles and
label order are fixed per locale, and each of the 9 values is an
integer inside its declared inclusive range — for every state of the
randomness stream, in both locale variants. -/
theorem C1_metric_generator (g : Nat → Nat) :
    ((generate_chart_metrics_zh g).length = 3 ∧
     (generate_chart_metrics_zh g).map (fun c => c.title) =
       ["市场定位", "投资者吸引力", "战略执行力"] ∧
     (generate_chart_metrics_zh g).map (fun c => c.labels) =
       [["品牌认知", "客户契合", "声誉稳固"],
        ["叙事信心", "规模化模型", "信任凭证"],
        ["合作准备", "高端渠道", "领导形象"]] ∧
     (generate_chart_metrics_zh g).map (fun c => c.values.length) = [3, 3, 3] ∧
     List.Forall₂ (fun ranges c => List.Forall₂ (fun b v => b.1 ≤ v ∧ v ≤ b.2) ranges c.values)
       slot_ranges (generate_chart_metrics_zh g)) ∧
    ((generate_chart_metrics_en g).length = 3 ∧
     (generate_chart_metrics_en g).map (fun c => c.title) =
       ["Market Positioning", "Investor Appeal", "Strategic Execution"] ∧
     (generate_chart_metrics_en g).map (fun c => c.labels) =
       [["Brand Recall", "Client Fit Clarity", "Reputation Stickiness"],
        ["Narrative Confidence", "Scalability Model", "Proof of Trust"],
        ["Partnership Readiness", "Premium Channel Leverage", "Leadership Presence"]] ∧
     (generate_chart_metrics_en g).map (fun c => c.values.length) = [3, 3, 3] ∧
     List.Forall₂ (fun ranges c => List.Forall₂ (fun b v => b.1 ≤ v ∧ v ≤ b.2) ranges c.values)
       slot_ranges (generate_chart_metrics_en g)) := by
  constructor <;> refine ⟨rfl, rfl, rfl, rfl, ?_⟩ <;>
    simp only [slot_ranges, generate_chart_metrics_zh, generate_chart_metrics_en,
      List.forall₂_cons, List.forall₂_nil_left_iff, pyRandint, and_true, true_and] <;>
    omega



/-- C3 (amended): for every request mapping the extractor yields a
record in which all 14 recognized keys are present; a missing key is
replaced by the `"N/A"` placeholder, while a key that is present keeps
its value — including an explicit `null`, which is *not* replaced.  The
extractor is a total function (it never fails). -/
theorem C3_extractor_amended (data : List (String × JVal)) :
    submission_fields (extract_submission data) =
      recognized_keys.map (fun k => (data.lookup k).getD NA) ∧
    recognized_keys.length = 14 := by
  exact ⟨rfl, rfl⟩

/-- C3 counterexample: the claim says a key present with a null value is
replaced by the placeholder; the code's `dict.get` returns the stored
`null` itself, which is not the placeholder. -/
theorem C3_null_counterexample :
    (extract_submission [(("fullName"), JVal.null)]).fullName = JVal.null ∧
    JVal.null ≠ NA := by
  refine ⟨rfl, fun h => ?_⟩
  simp only [NA] at h
  exact JVal.noConfusion h

/-- If industry and challenge are both hashable, the Chinese summary
builder succeeds on generator-shaped metrics. -/
theorem build_zh_ok (age : Int) (e i c ch ctx tp : JVal) (g : Nat → Nat) (r : Nat)
    (hi : hashable i = true) (hc : hashable ch = true) :
    ∃ s, build_dynamic_summary_zh age e i c (generate_chart_metrics_zh g) ch ctx tp r =
      Except.ok s := by
  cases i <;> cases ch <;>
    simp_all [build_dynamic_summary_zh, zh_industry_narrative, zh_challenge_narrative,
      pyMapGet, hashable, generate_chart_metrics_zh, Bind.bind, Except.bind]

/-- If industry or challenge is unhashable, the Chinese summary builder
raises. -/
theorem build_zh_error (age : Int) (e i c ch ctx tp : JVal) (ms : List MetricCategory)
    (r : Nat) (h : hashable i = false ∨ hashable ch = false) :
    ∃ err, build_dynamic_summary_zh age e i c ms ch ctx tp r = Except.error err := by
  cases i <;> cases ch <;>
    simp_all [build_dynamic_summary_zh, zh_industry_narrative, zh_challenge_narrative,
      pyMapGet, hashable, Bind.bind, Except.bind]

/-- If industry is hashable and challenge is a string, the English
summary builder succeeds on generator-shaped metrics. -/
theorem build_en_ok (age : Int) (e i c ch ctx tp : JVal) (g : Nat → Nat) (r : Nat)
    (hi : hashable i = true) (hc : isStr ch = true) :
    ∃ s, build_dynamic_summary_en age e i c (generate_chart_metrics_en g) ch ctx tp r =
      Except.ok s := by
  cases i <;> cases ch <;>
    simp_all [build_dynamic_summary_en, en_industry_narrative, en_challenge_narrative,
      pyMapGet, pyLowerStr, isStr, hashable, generate_chart_metrics_en, Bind.bind, Except.bind]

/-- If industry is unhashable or challenge is not a string, the English
summary builder raises (`TypeError` from the unhashable `dict.get` key,
or `AttributeError` from `challenge.lower()`). -/
theorem build_en_error (age : Int) (e i c ch ctx tp : JVal) (ms : List MetricCategory)
    (r : Nat) (h : hashable i = false ∨ isStr ch = false) :
    ∃ err, build_dynamic_summary_en age e i c ms ch ctx tp r = Except.error err := by
  cases i <;> cases ch <;>
    simp_all [build_dynamic_summary_en, en_industry_narrative, en_challenge_narrative,
      pyMapGet, pyLowerStr, isStr, hashable, Bind.bind, Except.bind]

/-- Status of the Chinese route on an object body: 200 exactly when the
industry and challenge values are hashable. -/
theorem investor_analyze_zh_status (data : List (String × JVal))
    (parse : String → Option SDate) (today : SDate) (g : Nat → Nat) (tips : Option String) :
    (investor_analyze_zh (.ok (.obj data)) parse today g tips).response.status =
      if hashable (pyGet data ("industry") NA) && hashable (pyGet data ("challenge") NA)
      then 200 else 500 := by
  by_cases hi : hashable (pyGet data ("industry") NA) = true
  · by_cases hc : hashable (pyGet data ("challenge") NA) = true
    · obtain ⟨s, hs⟩ := build_zh_ok (compute_age parse today (pyGet data ("dob") NA))
        (pyGet data ("experience") NA) (pyGet data ("industry") NA)
        (pyGet data ("country") NA) (pyGet data ("challenge") NA)
        (pyGet data ("context") NA) (pyGet data ("targetProfile") NA) g (g 9) hi hc
      simp [investor_analyze_zh, pyGetData, extract_submission, hs, hi, hc]
    · obtain ⟨err, he⟩ := build_zh_error (compute_age parse today (pyGet data ("dob") NA))
        (pyGet data ("experience") NA) (pyGet data ("industry") NA)
        (pyGet data ("country") NA) (pyGet data ("challenge") NA)
        (pyGet data ("context") NA) (pyGet data ("targetProfile") NA)
        (generate_chart_metrics_zh g) (g 9) (Or.inr (by simpa using hc))
      simp [investor_analyze_zh, pyGetData, extract_submission, he, hi, hc,
        internal_error_response]
  · obtain ⟨err, he⟩ := build_zh_error (compute_age parse today (pyGet data ("dob") NA))
      (pyGet data ("experience") NA) (pyGet data ("industry") NA)
      (pyGet data ("country") NA) (pyGet data ("challenge") NA)
      (pyGet data ("context") NA) (pyGet data ("targetProfile") NA)
      (generate_chart_metrics_zh g) (g 9) (Or.inl (by simpa using hi))
    simp [investor_analyze_zh, pyGetData, extract_submission, he, hi,
      internal_error_response]

/-- Status of the English route on an object body: 200 exactly when
industry is hashable and challenge is a string. -/
theorem investor_analyze_en_status (data : List (String × JVal))
    (parse : String → Option SDate) (today : SDate) (g : Nat → Nat) (tips : Option String) :
    (investor_analyze_en (.ok (.obj data)) parse today g tips).response.status =
      if hashable (pyGet data ("industry") NA) && isStr (pyGet data ("challenge") NA)
      then 200 else 500 := by
  by_cases hi : hashable (pyGet data ("industry") NA) = true
  · by_cases hc : isStr (pyGet data ("challenge") NA) = true
    · obtain ⟨s, hs⟩ := build_en_ok (compute_age parse today (pyGet data ("dob") NA))
        (pyGet data ("experience") NA) (pyGet data ("industry") NA)
        (pyGet data ("country") NA) (pyGet data ("challenge") NA)
        (pyGet data ("context") NA) (pyGet data ("targetProfile") NA) g (g 9) hi hc
      simp [investor_analyze_en, pyGetData, extract_submission, hs, hi, hc]
    · obtain ⟨err, he⟩ := build_en_error (compute_age parse today (pyGet data ("dob") NA))
        (pyGet data ("experience") NA) (pyGet data ("industry") NA)
        (pyGet data ("country") NA) (pyGet data ("challenge") NA)
        (pyGet data ("context") NA) (pyGet data ("targetProfile") NA)
        (generate_chart_metrics_en g) (g 9) (Or.inr (by simpa using hc))
      simp [investor_analyze_en, pyGetData, extract_submission, he, hi, hc,
        internal_error_response]
  · obtain ⟨err, he⟩ := build_en_error (compute_age parse today (pyGet data ("dob") NA))
      (pyGet data ("experience") NA) (pyGet data ("industry") NA)
      (pyGet data ("country") NA) (pyGet data ("challenge") NA)
      (pyGet data ("context") NA) (pyGet data ("targetProfile") NA)
      (generate_chart_metrics_en g) (g 9) (Or.inl (by simpa using hi))
    simp [investor_analyze_en, pyGetData, extract_submission, he, hi,
      internal_error_response]

/-- Every Chinese-route response is either a 200 carrying an
`html_result` string or the fixed internal-error 500. -/
theorem zh_response_dichotomy (body : Except Unit JVal) (parse : String → Option SDate)
    (today : SDate) (g : Nat → Nat) (tips : Option String) :
    (∃ h, (investor_analyze_zh body parse today g tips).response =
      { status := 200, body := [(("html_result"), JVal.str h)] }) ∨
    (investor_analyze_zh body parse today g tips).response = internal_error_response := by
  cases body with
  | error u => exact Or.inr rfl
  | ok v =>
    cases v with
    | obj data =>
      rcases hb : build_dynamic_summary_zh (compute_age parse today (pyGet data ("dob") NA))
          (pyGet data ("experience") NA) (pyGet data ("industry") NA)
          (pyGet data ("country") NA) (generate_chart_metrics_zh g)
          (pyGet data ("challenge") NA) (pyGet data ("context") NA)
          (pyGet data ("targetProfile") NA) (g 9) with e | s
      · exact Or.inr (by simp [investor_analyze_zh, pyGetData, extract_submission, hb])
      · exact Or.inl ⟨title_zh ++ generate_chart_html label_width_zh (generate_chart_metrics_zh g) ++
          s ++ tips_block_zh tips ++ footer_zh,
          by simp [investor_analyze_zh, pyGetData, extract_submission, hb]⟩
    | null => exact Or.inr rfl
    | bool b => exact Or.inr rfl
    | num n => exact Or.inr rfl
    | str s => exact Or.inr rfl
    | arr l => exact Or.inr rfl

/-- Every English-route response is either a 200 carrying an
`html_result` string or the fixed internal-error 500. -/
theorem en_response_dichotomy (body : Except Unit JVal) (parse : String → Option SDate)
    (today : SDate) (g : Nat → Nat) (tips : Option String) :
    (∃ h, (investor_analyze_en body parse today g tips).response =
      { status := 200, body := [(("html_result"), JVal.str h)] }) ∨
    (investor_analyze_en body parse today g tips).response = internal_error_response := by
  cases body with
  | error u => exact Or.inr rfl
  | ok v =>
    cases v with
    | obj data =>
      rcases hb : build_dynamic_summary_en (compute_age parse today (pyGet data ("dob") NA))
          (pyGet data ("experience") NA) (pyGet data ("industry") NA)
          (pyGet data ("country") NA) (generate_chart_metrics_en g)
          (pyGet data ("challenge") NA) (pyGet data ("context") NA)
          (pyGet data ("targetProfile") NA) (g 9) with e | s
      · exact Or.inr (by simp [investor_analyze_en, pyGetData, extract_submission, hb])
      · exact Or.inl ⟨title_en ++ generate_chart_html label_width_en (generate_chart_metrics_en g) ++
          s ++ tips_block_en tips ++ footer_en,
          by simp [investor_analyze_en, pyGetData, extract_submission, hb]⟩
    | null => exact Or.inr rfl
    | bool b => exact Or.inr rfl
    | num n => exact Or.inr rfl
    | str s => exact Or.inr rfl
    | arr l => exact Or.inr rfl

/-- `dict.get` skips an entry with a different key. -/
theorem pyGet_cons_ne (k k' : String) (v : JVal) (data : List (String × JVal))
    (d : JVal) (h : k ≠ k') :
    pyGet ((k', v) :: data) k d = pyGet data k d := by
  have hb : (k == k') = false := beq_eq_false_iff_ne.mpr h
  simp [pyGet, List.lookup, hb]

/-- The response status never depends on the tips collaborator's
outcome (Chinese route). -/
theorem zh_status_tips_irrel (body : Except Unit JVal) (parse : String → Option SDate)
    (today : SDate) (g : Nat → Nat) (tips tips' : Option String) :
    (investor_analyze_zh body parse today g tips).response.status =
      (investor_analyze_zh body parse today g tips').response.status := by
  cases body with
  | error u => rfl
  | ok v =>
    cases v with
    | obj data => rw [investor_analyze_zh_status, investor_analyze_zh_status]
    | null => rfl
    | bool b => rfl
    | num n => rfl
    | str s => rfl
    | arr l => rfl

/-- The response status never depends on the tips collaborator's
outcome (English route). -/
theorem en_status_tips_irrel (body : Except Unit JVal) (parse : String → Option SDate)
    (today : SDate) (g : Nat → Nat) (tips tips' : Option String) :
    (investor_analyze_en body parse today g tips).response.status =
      (investor_analyze_en body parse today g tips').response.status := by
  cases body with
  | error u => rfl
  | ok v =>
    cases v with
    | obj data => rw [investor_analyze_en_status, investor_analyze_en_status]
    | null => rfl
    | bool b => rfl
    | num n => rfl
    | str s => rfl
    | arr l => rfl

/-- C2: for every date-of-birth string the external parser turns into a
calendar date, `compute_age` returns current year minus birth year,
decremented by 1 exactly when the current (month, day) pair precedes
the birth (month, day) pair lexicographically; on every parse failure —
unparseable string, non-string value, or the `"N/A"` placeholder — it
returns exactly 0; and the response status of both routes never depends
on the dob field's value. -/
theorem C2_compute_age_contract (parse : String → Option SDate) (today : SDate) :
    (∀ s birth, parse s = some birth →
      compute_age parse today (JVal.str s) =
        today.year - birth.year -
          (if today.month < birth.month ∨
              (today.month = birth.month ∧ today.day < birth.day) then 1 else 0)) ∧
    (∀ s, parse s = none → compute_age parse today (JVal.str s) = 0) ∧
    (∀ v, isStr v = false → compute_age parse today v = 0) ∧
    (parse ("N/A") = none → compute_age parse today NA = 0) ∧
    (∀ (data : List (String × JVal)) (g : Nat → Nat) (tips : Option String) (v v' : JVal),
      (investor_analyze_zh (.ok (.obj ((("dob"), v) :: data))) parse today g tips).response.status =
        (investor_analyze_zh (.ok (.obj ((("dob"), v') :: data))) parse today g tips).response.status ∧
      (investor_analyze_en (.ok (.obj ((("dob"), v) :: data))) parse today g tips).response.status =
        (investor_analyze_en (.ok (.obj ((("dob"), v') :: data))) parse today g tips).response.status) := by
  refine ⟨?_, ?_, ?_, ?_, ?_⟩
  · intro s birth h
    simp [compute_age, h]
  · intro s h
    simp [compute_age, h]
  · intro v h
    cases v <;> simp_all [compute_age, isStr]
  · intro h
    simp [NA, compute_age, h]
  · intro data g tips v v'
    constructor
    · rw [investor_analyze_zh_status, investor_analyze_zh_status,
        pyGet_cons_ne ("industry") ("dob") v data NA (by decide),
        pyGet_cons_ne ("industry") ("dob") v' data NA (by decide),
        pyGet_cons_ne ("challenge") ("dob") v data NA (by decide),
        pyGet_cons_ne ("challenge") ("dob") v' data NA (by decide)]
    · rw [investor_analyze_en_status, investor_analyze_en_status,
        pyGet_cons_ne ("industry") ("dob") v data NA (by decide),
        pyGet_cons_ne ("industry") ("dob") v' data NA (by decide),
        pyGet_cons_ne ("challenge") ("dob") v data NA (by decide),
        pyGet_cons_ne ("challenge") ("dob") v' data NA (by decide)]


/-- Witness for C2 at a concrete parser, date and dob string. -/
theorem C2_compute_age_witness :
    c2parse ("1990-05-20") = some (⟨1990, 5, 20⟩ : SDate) ∧
    compute_age c2parse (⟨2026, 10, 12⟩ : SDate) (JVal.str ("1990-05-20")) =
      (2026 : Int) - 1990 -
        (if (10 : Nat) < 5 ∨ ((10 : Nat) = 5 ∧ (12 : Nat) < 20) then 1 else 0) :=
  ⟨by simp [c2parse],
    (C2_compute_age_contract c2parse ⟨2026, 10, 12⟩).1 ("1990-05-20") ⟨1990, 5, 20⟩
      (by simp [c2parse])⟩

/-- C4 counterexample: a JSON-array industry value (Chinese variant) or
a numeric challenge value (English variant) makes the pipeline raise,
and the handler returns the internal-error response — so a field's
value alone can produce the 500. -/
theorem C4_malformed_field_counterexample :
    (investor_analyze_zh (.ok (.obj [(("industry"), JVal.arr [])]))
      (fun _ => none) ⟨2026, 10, 12⟩ (fun _ => 0) none).response = internal_error_response ∧
    (investor_analyze_en (.ok (.obj [(("challenge"), JVal.num 5)]))
      (fun _ => none) ⟨2026, 10, 12⟩ (fun _ => 0) none).response = internal_error_response := by
  constructor <;> rfl

/-- C4 (amended): missing fields and hashable scalar field values
degrade gracefully to a 200 — no request-validation layer exists — but
an unhashable (array/object) industry or challenge value, and in the
English variant any non-string challenge, raises inside the pipeline
and yields the internal-error response. -/
theorem C4_graceful_degradation_amended (data : List (String × JVal))
    (parse : String → Option SDate) (today : SDate) (g : Nat → Nat) (tips : Option String)
    (hin : hashable (pyGet data ("industry") NA) = true) :
    (hashable (pyGet data ("challenge") NA) = true →
      (investor_analyze_zh (.ok (.obj data)) parse today g tips).response.status = 200) ∧
    (isStr (pyGet data ("challenge") NA) = true →
      (investor_analyze_en (.ok (.obj data)) parse today g tips).response.status = 200) := by
  constructor
  · intro hch
    rw [investor_analyze_zh_status]
    simp [hin, hch]
  · intro hch
    rw [investor_analyze_en_status]
    simp [hin, hch]

/-- Witness for C4 at the empty request object (all fields default to
the `"N/A"` placeholder). -/
theorem C4_graceful_degradation_witness :
    hashable (pyGet [] ("industry") NA) = true ∧
    hashable (pyGet [] ("challenge") NA) = true ∧
    isStr (pyGet [] ("challenge") NA) = true ∧
    (investor_analyze_zh (.ok (.obj [])) (fun _ => none) ⟨2026, 10, 12⟩
      (fun _ => 0) none).response.status = 200 ∧
    (investor_analyze_en (.ok (.obj [])) (fun _ => none) ⟨2026, 10, 12⟩
      (fun _ => 0) none).response.status = 200 :=
  ⟨rfl, rfl, rfl,
    (C4_graceful_degradation_amended [] (fun _ => none) ⟨2026, 10, 12⟩ (fun _ => 0) none rfl).1 rfl,
    (C4_graceful_degradation_amended [] (fun _ => none) ⟨2026, 10, 12⟩ (fun _ => 0) none rfl).2 rfl⟩

/-- C7: every response of either route is exactly a 200 carrying a JSON
object with the single key `html_result`, or the fixed 500 whose body
is exactly the generic error object — no other status, no internal
detail, no partial HTML on failure. -/
theorem C7_response_contract (body : Except Unit JVal) (parse : String → Option SDate)
    (today : SDate) (g : Nat → Nat) (tips : Option String) :
    ((∃ h, (investor_analyze_zh body parse today g tips).response =
        { status := 200, body := [(("html_result"), JVal.str h)] }) ∨
      (investor_analyze_zh body parse today g tips).response = internal_error_response) ∧
    ((∃ h, (investor_analyze_en body parse today g tips).response =
        { status := 200, body := [(("html_result"), JVal.str h)] }) ∨
      (investor_analyze_en body parse today g tips).response = internal_error_response) ∧
    internal_error_response =
      { status := 500, body := [(("error"), JVal.str ("An internal server error occurred."))] } :=
  ⟨zh_response_dichotomy body parse today g tips,
    en_response_dichotomy body parse today g tips, rfl⟩

/-- C6 counterexample: on the spec's own example response the code's
tips block is not merely the sequence of wrapped non-blank lines — it
is preceded by the fixed tips heading. -/
theorem C6_tips_header_counterexample :
    tips_block_zh (some ("Tip one\n\nTip two\nTip three")) ≠
      tips_paragraphs ("Tip one\n\nTip two\nTip three") ∧
    tips_block_en (some ("Tip one\n\nTip two\nTip three")) ≠
      tips_paragraphs ("Tip one\n\nTip two\nTip three") := by
  constructor <;> decide

/-- C6 (amended): for every non-empty collaborator text the tips block
is the fixed tips heading followed by exactly the text's non-blank
lines, each trimmed and wrapped in its own paragraph in received order
(blank lines dropped); on failure or an empty result it is exactly the
fixed fallback paragraph; and the collaborator's outcome never changes
the response status. -/
theorem C6_tips_block_amended :
    (∀ t : String, ¬ t.isEmpty →
      tips_block_zh (some t) = zh_tips_header ++ tips_paragraphs t ∧
      tips_block_en (some t) = en_tips_header ++ tips_paragraphs t) ∧
    (∀ t : String, tips_paragraphs t =
      String.join (((pySplitlines t).filter (fun line => !(pyStrip line).isEmpty)).map
        (fun line => tips_p_open ++ pyStrip line ++ "</p>"))) ∧
    (tips_block_zh none = zh_tips_fallback ∧ tips_block_zh (some ("")) = zh_tips_fallback ∧
      tips_block_en none = en_tips_fallback ∧ tips_block_en (some ("")) = en_tips_fallback) ∧
    (∀ body parse today g tips tips',
      (investor_analyze_zh body parse today g tips).response.status =
        (investor_analyze_zh body parse today g tips').response.status ∧
      (investor_analyze_en body parse today g tips).response.status =
        (investor_analyze_en body parse today g tips').response.status) := by
  refine ⟨?_, fun t => rfl, ⟨rfl, rfl, rfl, rfl⟩, ?_⟩
  · intro t h
    constructor <;> simp [tips_block_zh, tips_block_en, h]
  · intro body parse today g tips tips'
    exact ⟨zh_status_tips_irrel body parse today g tips tips',
      en_status_tips_irrel body parse today g tips tips'⟩

/-- Witness for C6 on the spec's example text. -/
theorem C6_tips_block_witness :
    ¬ ("Tip one\n\nTip two\nTip three" : String).isEmpty ∧
    tips_block_zh (some ("Tip one\n\nTip two\nTip three")) =
      zh_tips_header ++ tips_paragraphs ("Tip one\n\nTip two\nTip three") ∧
    tips_block_en (some ("Tip one\n\nTip two\nTip three")) =
      en_tips_header ++ tips_paragraphs ("Tip one\n\nTip two\nTip three") :=
  ⟨by decide,
    (C6_tips_block_amended.1 ("Tip one\n\nTip two\nTip three") (by decide)).1,
    (C6_tips_block_amended.1 ("Tip one\n\nTip two\nTip three") (by decide)).2⟩

/-- The chart fold, started from an arbitrary accumulator, appends one
title-plus-rows-plus-`<br>` block per category. -/
theorem chart_foldl_aux (w : String) (metrics : List MetricCategory) (a : String) :
    metrics.foldl
      (fun html metric =>
        (((metric.labels.zip metric.values).enum).foldl
          (fun h x => h ++ chart_row_html w x.2.1 x.2.2 x.1)
          (html ++ chart_title_html metric.title)) ++ "<br>") a =
    a ++ String.join (metrics.map (fun metric =>
      chart_title_html metric.title ++
      (String.join (((metric.labels.zip metric.values).enum).map
        (fun x => chart_row_html w x.2.1 x.2.2 x.1)) ++ "<br>"))) := by
  induction metrics generalizing a with
  | nil => simp [String.join, String.append_empty]
  | cons m ms ih =>
    rw [List.foldl_cons, ih, List.map_cons, string_join_cons, foldl_append_map]
    simp [String.append_assoc]

/-- C9: the chart renderer emits, for every category, the title line
followed by one row per (label, value) pair in order; each row's fill
width is the literal integer value, and its fill color is the palette
entry at the slot position modulo 3 — a function of the slot index
alone, for any category and either label width. -/
theorem C9_chart_renderer :
    (∀ (label_width : String) (metrics : List MetricCategory),
      generate_chart_html label_width metrics =
        String.join (metrics.map (fun metric =>
          chart_title_html metric.title ++
          (String.join (((metric.labels.zip metric.values).enum).map
            (fun x => chart_row_html label_width x.2.1 x.2.2 x.1)) ++ "<br>")))) ∧
    (∀ (label_width label : String) (val j : Nat),
      chart_row_html label_width label val j =
        "<div style=\x27display:flex;align-items:center;margin-bottom:8px;\x27>" ++
        "<span style=\x27width:" ++ label_width ++ "; font-size: 15px;\x27>" ++ label ++ "</span>" ++
        "<div style=\x27flex:1;background:#eee;border-radius:5px;overflow:hidden;\x27>" ++
        "<div style=\x27width:" ++ toString val ++ "%;height:14px;background:" ++
        chart_colors.getD (j % 3) "" ++ ";\x27></div></div>" ++
        "<span style=\x27margin-left:10px; font-size: 15px;\x27>" ++ toString val ++ "%</span></div>") ∧
    chart_colors = ["#8C52FF", "#5E9CA0", "#F2A900"] ∧
    chart_colors.length = 3 := by
  refine ⟨?_, fun label_width label val j => rfl, rfl, rfl⟩
  intro label_width metrics
  rw [generate_chart_html, chart_foldl_aux, String.empty_append]

/-- The summary builders ignore the `context` and `target_profile`
arguments entirely (Chinese variant). -/
theorem build_zh_ctx_irrel (age : Int) (e i c : JVal) (ms : List MetricCategory)
    (ch ctx tp ctx' tp' : JVal) (r : Nat) :
    build_dynamic_summary_zh age e i c ms ch ctx tp r =
      build_dynamic_summary_zh age e i c ms ch ctx' tp' r := rfl

/-- The summary builders ignore the `context` and `target_profile`
arguments entirely (English variant). -/
theorem build_en_ctx_irrel (age : Int) (e i c : JVal) (ms : List MetricCategory)
    (ch ctx tp ctx' tp' : JVal) (r : Nat) :
    build_dynamic_summary_en age e i c ms ch ctx tp r =
      build_dynamic_summary_en age e i c ms ch ctx' tp' r := rfl

/-- C10: with the randomness stream and the tips response held fixed,
two request objects whose dob, country, experience, industry and
challenge lookups agree — i.e. that differ only in the other nine
recognized fields (fullName, chineseName, contactNumber, company,
role, context, targetProfile, advisor, email) — receive identical HTTP
responses from both routes; those nine fields reach only the emailed
document. -/
theorem C10_response_noninterference (d1 d2 : List (String × JVal))
    (parse : String → Option SDate) (today : SDate) (g : Nat → Nat) (tips : Option String)
    (hdob : pyGet d1 ("dob") NA = pyGet d2 ("dob") NA)
    (hco : pyGet d1 ("country") NA = pyGet d2 ("country") NA)
    (hex : pyGet d1 ("experience") NA = pyGet d2 ("experience") NA)
    (hin : pyGet d1 ("industry") NA = pyGet d2 ("industry") NA)
    (hch : pyGet d1 ("challenge") NA = pyGet d2 ("challenge") NA) :
    (investor_analyze_zh (.ok (.obj d1)) parse today g tips).response =
      (investor_analyze_zh (.ok (.obj d2)) parse today g tips).response ∧
    (investor_analyze_en (.ok (.obj d1)) parse today g tips).response =
      (investor_analyze_en (.ok (.obj d2)) parse today g tips).response := by
  constructor
  · simp only [investor_analyze_zh, pyGetData, extract_submission]
    rw [hdob, hco, hex, hin, hch,
      build_zh_ctx_irrel (compute_age parse today (pyGet d2 ("dob") NA))
        (pyGet d2 ("experience") NA) (pyGet d2 ("industry") NA) (pyGet d2 ("country") NA)
        (generate_chart_metrics_zh g) (pyGet d2 ("challenge") NA)
        (pyGet d1 ("context") NA) (pyGet d1 ("targetProfile") NA)
        (pyGet d2 ("context") NA) (pyGet d2 ("targetProfile") NA) (g 9)]
    rcases hb : build_dynamic_summary_zh (compute_age parse today (pyGet d2 ("dob") NA))
        (pyGet d2 ("experience") NA) (pyGet d2 ("industry") NA) (pyGet d2 ("country") NA)
        (generate_chart_metrics_zh g) (pyGet d2 ("challenge") NA)
        (pyGet d2 ("context") NA) (pyGet d2 ("targetProfile") NA) (g 9) with e | s <;>
      simp [hb]
  · simp only [investor_analyze_en, pyGetData, extract_submission]
    rw [hdob, hco, hex, hin, hch,
      build_en_ctx_irrel (compute_age parse today (pyGet d2 ("dob") NA))
        (pyGet d2 ("experience") NA) (pyGet d2 ("industry") NA) (pyGet d2 ("country") NA)
        (generate_chart_metrics_en g) (pyGet d2 ("challenge") NA)
        (pyGet d1 ("context") NA) (pyGet d1 ("targetProfile") NA)
        (pyGet d2 ("context") NA) (pyGet d2 ("targetProfile") NA) (g 9)]
    rcases hb : build_dynamic_summary_en (compute_age parse today (pyGet d2 ("dob") NA))
        (pyGet d2 ("experience") NA) (pyGet d2 ("industry") NA) (pyGet d2 ("country") NA)
        (generate_chart_metrics_en g) (pyGet d2 ("challenge") NA)
        (pyGet d2 ("context") NA) (pyGet d2 ("targetProfile") NA) (g 9) with e | s <;>
      simp [hb]

/-- Witness for C10: two bodies differing only in `fullName` get the
same responses. -/
theorem C10_response_noninterference_witness :
    pyGet [(("fullName"), JVal.str ("Alice"))] ("dob") NA =
      pyGet [(("fullName"), JVal.str ("Bob"))] ("dob") NA ∧
    pyGet [(("fullName"), JVal.str ("Alice"))] ("country") NA =
      pyGet [(("fullName"), JVal.str ("Bob"))] ("country") NA ∧
    pyGet [(("fullName"), JVal.str ("Alice"))] ("experience") NA =
      pyGet [(("fullName"), JVal.str ("Bob"))] ("experience") NA ∧
    pyGet [(("fullName"), JVal.str ("Alice"))] ("industry") NA =
      pyGet [(("fullName"), JVal.str ("Bob"))] ("industry") NA ∧
    pyGet [(("fullName"), JVal.str ("Alice"))] ("challenge") NA =
      pyGet [(("fullName"), JVal.str ("Bob"))] ("challenge") NA ∧
    ((investor_analyze_zh (.ok (.obj [(("fullName"), JVal.str ("Alice"))]))
        (fun _ => none) ⟨2026, 10, 12⟩ (fun _ => 0) none).response =
      (investor_analyze_zh (.ok (.obj [(("fullName"), JVal.str ("Bob"))]))
        (fun _ => none) ⟨2026, 10, 12⟩ (fun _ => 0) none).response ∧
     (investor_analyze_en (.ok (.obj [(("fullName"), JVal.str ("Alice"))]))
        (fun _ => none) ⟨2026, 10, 12⟩ (fun _ => 0) none).response =
      (investor_analyze_en (.ok (.obj [(("fullName"), JVal.str ("Bob"))]))
        (fun _ => none) ⟨2026, 10, 12⟩ (fun _ => 0) none).response) :=
  ⟨rfl, rfl, rfl, rfl, rfl,
    C10_response_noninterference [(("fullName"), JVal.str ("Alice"))]
      [(("fullName"), JVal.str ("Bob"))] (fun _ => none) ⟨2026, 10, 12⟩ (fun _ => 0) none
      rfl rfl rfl rfl rfl⟩

/-- C5: whenever the industry and challenge narratives resolve, the
narrative composer returns exactly the fixed header followed by four
paragraph blocks in fixed order; the lead sentence is the element at
index `r mod 3` of the 3-element opening-template list and is the
prefix of paragraph 1's content; paragraph 1 interpolates the three
category-1 values (brand, fit, stick), paragraph 2 the category-2
values (conf, scale, trust), paragraph 3 the category-3 values (partn,
premium, leader), each unpacked positionally from the metric
categories; and the output is non-empty.  Both locale variants. -/
theorem C5_narrative_composer (age : Int) (experience country industry challenge ctx tp : JVal)
    (r : Nat) (t1 t2 t3 : String) (l1 l2 l3 : List String)
    (brand fit stick conf scale trust partn premium leader : Nat)
    (inarrZ cnarrZ inarrE cnarrE : String)
    (hiz : zh_industry_narrative industry = .ok inarrZ)
    (hcz : zh_challenge_narrative challenge = .ok cnarrZ)
    (hie : en_industry_narrative industry = .ok inarrE)
    (hce : en_challenge_narrative challenge = .ok cnarrE) :
    (build_dynamic_summary_zh age experience industry country
        [⟨t1, l1, [brand, fit, stick]⟩, ⟨t2, l2, [conf, scale, trust]⟩,
          ⟨t3, l3, [partn, premium, leader]⟩] challenge ctx tp r =
      .ok (zh_summary_header ++
        zh_paragraph1 ((zh_opening_templates age experience country inarrZ).getD (r % 3) "")
          cnarrZ brand fit stick ++
        zh_paragraph2 country conf scale trust ++
        zh_paragraph3 partn premium leader ++
        zh_paragraph4)) ∧
    (build_dynamic_summary_en age experience industry country
        [⟨t1, l1, [brand, fit, stick]⟩, ⟨t2, l2, [conf, scale, trust]⟩,
          ⟨t3, l3, [partn, premium, leader]⟩] challenge ctx tp r =
      .ok (en_summary_header ++
        en_paragraph1 ((en_opening_templates age experience country inarrE).getD (r % 3) "")
          cnarrE brand fit stick ++
        en_paragraph2 country conf scale trust ++
        en_paragraph3 partn premium leader ++
        en_paragraph4)) ∧
    ((zh_opening_templates age experience country inarrZ).length = 3 ∧
      (en_opening_templates age experience country inarrE).length = 3) ∧
    (∀ chosen cn b f s, ∃ rest,
      zh_paragraph1 chosen cn b f s = (summary_p_open ++ chosen) ++ rest) ∧
    (∀ chosen cn b f s, ∃ rest,
      en_paragraph1 chosen cn b f s = (summary_p_open ++ chosen) ++ rest) ∧
    (zh_summary_header ++
        zh_paragraph1 ((zh_opening_templates age experience country inarrZ).getD (r % 3) "")
          cnarrZ brand fit stick ++
        zh_paragraph2 country conf scale trust ++
        zh_paragraph3 partn premium leader ++ zh_paragraph4 ≠ "" ∧
      en_summary_header ++
        en_paragraph1 ((en_opening_templates age experience country inarrE).getD (r % 3) "")
          cnarrE brand fit stick ++
        en_paragraph2 country conf scale trust ++
        en_paragraph3 partn premium leader ++ en_paragraph4 ≠ "") := by
  refine ⟨?_, ?_, ⟨rfl, rfl⟩, ?_, ?_, ?_, ?_⟩
  · simp only [build_dynamic_summary_zh]
    rw [hiz, hcz]
    rfl
  · simp only [build_dynamic_summary_en]
    rw [hie, hce]
    rfl
  · intro chosen cn b f s
    exact ⟨zh_p1_tail cn b f s, rfl⟩
  · intro chosen cn b f s
    exact ⟨en_p1_tail cn b f s, rfl⟩
  · exact append_ne_empty_left _ _ (append_ne_empty_left _ _ (append_ne_empty_left _ _
      (append_ne_empty_left _ _ (by decide))))
  · exact append_ne_empty_left _ _ (append_ne_empty_left _ _ (append_ne_empty_left _ _
      (append_ne_empty_left _ _ (by decide))))

/-- Witness for C5 on the spec's test vector: age 35, experience 10,
industry Technology, country Singapore, challenge Need New Funding,
metric values [[80, 75, 82], [78, 70, 85], [75, 80, 88]]. -/
theorem C5_narrative_composer_witness :
    zh_industry_narrative (JVal.str ("Technology")) = .ok ("于 Technology 领域") ∧
    zh_challenge_narrative (JVal.str ("Need New Funding")) =
      .ok ("解决 Need New Funding 的主要挑战") ∧
    en_industry_narrative (JVal.str ("Technology")) =
      .ok ("the fast-evolving technology sector") ∧
    en_challenge_narrative (JVal.str ("Need New Funding")) =
      .ok ("the pursuit of fresh capital to fuel the next stage of growth") ∧
    (build_dynamic_summary_zh 35 (JVal.num 10) (JVal.str ("Technology"))
        (JVal.str ("Singapore"))
        [⟨"c1", [], [80, 75, 82]⟩, ⟨"c2", [], [78, 70, 85]⟩, ⟨"c3", [], [75, 80, 88]⟩]
        (JVal.str ("Need New Funding")) JVal.null JVal.null 0 =
      .ok (zh_summary_header ++
        zh_paragraph1 ((zh_opening_templates 35 (JVal.num 10) (JVal.str ("Singapore"))
            ("于 Technology 领域")).getD (0 % 3) "")
          ("解决 Need New Funding 的主要挑战") 80 75 82 ++
        zh_paragraph2 (JVal.str ("Singapore")) 78 70 85 ++
        zh_paragraph3 75 80 88 ++
        zh_paragraph4)) ∧
    (build_dynamic_summary_en 35 (JVal.num 10) (JVal.str ("Technology"))
        (JVal.str ("Singapore"))
        [⟨"c1", [], [80, 75, 82]⟩, ⟨"c2", [], [78, 70, 85]⟩, ⟨"c3", [], [75, 80, 88]⟩]
        (JVal.str ("Need New Funding")) JVal.null JVal.null 0 =
      .ok (en_summary_header ++
        en_paragraph1 ((en_opening_templates 35 (JVal.num 10) (JVal.str ("Singapore"))
            ("the fast-evolving technology sector")).getD (0 % 3) "")
          ("the pursuit of fresh capital to fuel the next stage of growth") 80 75 82 ++
        en_paragraph2 (JVal.str ("Singapore")) 78 70 85 ++
        en_paragraph3 75 80 88 ++
        en_paragraph4)) :=
  ⟨rfl, rfl, rfl, rfl,
    (C5_narrative_composer 35 (JVal.num 10) (JVal.str ("Singapore")) (JVal.str ("Technology"))
      (JVal.str ("Need New Funding")) JVal.null JVal.null 0 ("c1") ("c2") ("c3") [] [] []
      80 75 82 78 70 85 75 80 88
      ("于 Technology 领域") ("解决 Need New Funding 的主要挑战")
      ("the fast-evolving technology sector")
      ("the pursuit of fresh capital to fuel the next stage of growth")
      rfl rfl rfl rfl).1,
    (C5_narrative_composer 35 (JVal.num 10) (JVal.str ("Singapore")) (JVal.str ("Technology"))
      (JVal.str ("Need New Funding")) JVal.null JVal.null 0 ("c1") ("c2") ("c3") [] [] []
      80 75 82 78 70 85 75 80 88
      ("于 Technology 领域") ("解决 Need New Funding 的主要挑战")
      ("the fast-evolving technology sector")
      ("the pursuit of fresh capital to fuel the next stage of growth")
      rfl rfl rfl rfl).2.1⟩

/-- C8: on success the HTTP response body is exactly
title + charts + narrative + tips + footer (no submission-details
block), the emailed document is the heading, then the details block
over all 14 fields, then that same content, and the email subject is
the fixed prefix followed by the submitted full name. -/
theorem C8_document_composition (data : List (String × JVal))
    (parse : String → Option SDate) (today : SDate) (g : Nat → Nat) (tips : Option String)
    (hin : hashable (pyGet data ("industry") NA) = true)
    (hchz : hashable (pyGet data ("challenge") NA) = true)
    (hche : isStr (pyGet data ("challenge") NA) = true) :
    ∃ sumZ sumE,
      build_dynamic_summary_zh (compute_age parse today (pyGet data ("dob") NA))
        (pyGet data ("experience") NA) (pyGet data ("industry") NA)
        (pyGet data ("country") NA) (generate_chart_metrics_zh g)
        (pyGet data ("challenge") NA) (pyGet data ("context") NA)
        (pyGet data ("targetProfile") NA) (g 9) = .ok sumZ ∧
      build_dynamic_summary_en (compute_age parse today (pyGet data ("dob") NA))
        (pyGet data ("experience") NA) (pyGet data ("industry") NA)
        (pyGet data ("country") NA) (generate_chart_metrics_en g)
        (pyGet data ("challenge") NA) (pyGet data ("context") NA)
        (pyGet data ("targetProfile") NA) (g 9) = .ok sumE ∧
      ((investor_analyze_zh (.ok (.obj data)) parse today g tips).response =
        { status := 200, body := [(("html_result"), JVal.str
            (title_zh ++ generate_chart_html label_width_zh (generate_chart_metrics_zh g) ++
              sumZ ++ tips_block_zh tips ++ footer_zh))] } ∧
       (investor_analyze_zh (.ok (.obj data)) parse today g tips).email = some
        { body := email_heading_zh ++ details_zh (extract_submission data) ++ title_zh ++
            generate_chart_html label_width_zh (generate_chart_metrics_zh g) ++
            sumZ ++ tips_block_zh tips ++ footer_zh,
          subject := subject_zh (extract_submission data).fullName }) ∧
      ((investor_analyze_en (.ok (.obj data)) parse today g tips).response =
        { status := 200, body := [(("html_result"), JVal.str
            (title_en ++ generate_chart_html label_width_en (generate_chart_metrics_en g) ++
              sumE ++ tips_block_en tips ++ footer_en))] } ∧
       (investor_analyze_en (.ok (.obj data)) parse today g tips).email = some
        { body := email_heading_en ++ details_en (extract_submission data) ++ title_en ++
            generate_chart_html label_width_en (generate_chart_metrics_en g) ++
            sumE ++ tips_block_en tips ++ footer_en,
          subject := subject_en (extract_submission data).fullName }) ∧
      (email_heading_zh ++ details_zh (extract_submission data) ++ title_zh ++
          generate_chart_html label_width_zh (generate_chart_metrics_zh g) ++
          sumZ ++ tips_block_zh tips ++ footer_zh =
        (email_heading_zh ++ details_zh (extract_submission data)) ++
          (title_zh ++ generate_chart_html label_width_zh (generate_chart_metrics_zh g) ++
            sumZ ++ tips_block_zh tips ++ footer_zh) ∧
       email_heading_en ++ details_en (extract_submission data) ++ title_en ++
          generate_chart_html label_width_en (generate_chart_metrics_en g) ++
          sumE ++ tips_block_en tips ++ footer_en =
        (email_heading_en ++ details_en (extract_submission data)) ++
          (title_en ++ generate_chart_html label_width_en (generate_chart_metrics_en g) ++
            sumE ++ tips_block_en tips ++ footer_en)) ∧
      (subject_zh (extract_submission data).fullName =
          "新的投资者洞察: " ++ pyStr (extract_submission data).fullName ∧
       subject_en (extract_submission data).fullName =
          "New Investor Insight: " ++ pyStr (extract_submission data).fullName) ∧
      (submission_fields (extract_submission data)).length = 14 := by
  obtain ⟨sumZ, hsZ⟩ := build_zh_ok (compute_age parse today (pyGet data ("dob") NA))
    (pyGet data ("experience") NA) (pyGet data ("industry") NA)
    (pyGet data ("country") NA) (pyGet data ("challenge") NA)
    (pyGet data ("context") NA) (pyGet data ("targetProfile") NA) g (g 9) hin hchz
  obtain ⟨sumE, hsE⟩ := build_en_ok (compute_age parse today (pyGet data ("dob") NA))
    (pyGet data ("experience") NA) (pyGet data ("industry") NA)
    (pyGet data ("country") NA) (pyGet data ("challenge") NA)
    (pyGet data ("context") NA) (pyGet data ("targetProfile") NA) g (g 9) hin hche
  refine ⟨sumZ, sumE, hsZ, hsE, ⟨?_, ?_⟩, ⟨?_, ?_⟩, ⟨?_, ?_⟩, ⟨rfl, rfl⟩, rfl⟩
  · simp [investor_analyze_zh, pyGetData, extract_submission, hsZ]
  · simp [investor_analyze_zh, pyGetData, extract_submission, hsZ, details_zh, subject_zh]
  · simp [investor_analyze_en, pyGetData, extract_submission, hsE]
  · simp [investor_analyze_en, pyGetData, extract_submission, hsE, details_en, subject_en]
  · simp [String.append_assoc]
  · simp [String.append_assoc]

/-- Witness for C8 at the empty request object. -/
theorem C8_document_composition_witness :
    hashable (pyGet [] ("industry") NA) = true ∧
    hashable (pyGet [] ("challenge") NA) = true ∧
    isStr (pyGet [] ("challenge") NA) = true ∧
    (∃ sumZ sumE,
      build_dynamic_summary_zh (compute_age (fun _ => none) ⟨2026, 10, 12⟩ (pyGet [] ("dob") NA))
        (pyGet [] ("experience") NA) (pyGet [] ("industry") NA)
        (pyGet [] ("country") NA) (generate_chart_metrics_zh (fun _ => 0))
        (pyGet [] ("challenge") NA) (pyGet [] ("context") NA)
        (pyGet [] ("targetProfile") NA) ((fun _ => (0 : Nat)) 9) = .ok sumZ ∧
      build_dynamic_summary_en (compute_age (fun _ => none) ⟨2026, 10, 12⟩ (pyGet [] ("dob") NA))
        (pyGet [] ("experience") NA) (pyGet [] ("industry") NA)
        (pyGet [] ("country") NA) (generate_chart_metrics_en (fun _ => 0))
        (pyGet [] ("challenge") NA) (pyGet [] ("context") NA)
        (pyGet [] ("targetProfile") NA) ((fun _ => (0 : Nat)) 9) = .ok sumE ∧
      ((investor_analyze_zh (.ok (.obj [])) (fun _ => none) ⟨2026, 10, 12⟩ (fun _ => 0) none).response =
        { status := 200, body := [(("html_result"), JVal.str
            (title_zh ++ generate_chart_html label_width_zh (generate_chart_metrics_zh (fun _ => 0)) ++
              sumZ ++ tips_block_zh none ++ footer_zh))] } ∧
       (investor_analyze_zh (.ok (.obj [])) (fun _ => none) ⟨2026, 10, 12⟩ (fun _ => 0) none).email = some
        { body := email_heading_zh ++ details_zh (extract_submission []) ++ title_zh ++
            generate_chart_html label_width_zh (generate_chart_metrics_zh (fun _ => 0)) ++
            sumZ ++ tips_block_zh none ++ footer_zh,
          subject := subject_zh (extract_submission []).fullName }) ∧
      ((investor_analyze_en (.ok (.obj [])) (fun _ => none) ⟨2026, 10, 12⟩ (fun _ => 0) none).response =
        { status := 200, body := [(("html_result"), JVal.str
            (title_en ++ generate_chart_html label_width_en (generate_chart_metrics_en (fun _ => 0)) ++
              sumE ++ tips_block_en none ++ footer_en))] } ∧
       (investor_analyze_en (.ok (.obj [])) (fun _ => none) ⟨2026, 10, 12⟩ (fun _ => 0) none).email = some
        { body := email_heading_en ++ details_en (extract_submission []) ++ title_en ++
            generate_chart_html label_width_en (generate_chart_metrics_en (fun _ => 0)) ++
            sumE ++ tips_block_en none ++ footer_en,
          subject := subject_en (extract_submission []).fullName }) ∧
      (email_heading_zh ++ details_zh (extract_submission []) ++ title_zh ++
          generate_chart_html label_width_zh (generate_chart_metrics_zh (fun _ => 0)) ++
          sumZ ++ tips_block_zh none ++ footer_zh =
        (email_heading_zh ++ details_zh (extract_submission [])) ++
          (title_zh ++ generate_chart_html label_width_zh (generate_chart_metrics_zh (fun _ => 0)) ++
            sumZ ++ tips_block_zh none ++ footer_zh) ∧
       email_heading_en ++ details_en (extract_submission []) ++ title_en ++
          generate_chart_html label_width_en (generate_chart_metrics_en (fun _ => 0)) ++
          sumE ++ tips_block_en none ++ footer_en =
        (email_heading_en ++ details_en (extract_submission [])) ++
          (title_en ++ generate_chart_html label_width_en (generate_chart_metrics_en (fun _ => 0)) ++
            sumE ++ tips_block_en none ++ footer_en)) ∧
      (subject_zh (extract_submission []).fullName =
          "新的投资者洞察: " ++ pyStr (extract_submission []).fullName ∧
       subject_en (extract_submission []).fullName =
          "New Investor Insight: " ++ pyStr (extract_submission []).fullName) ∧
      (submission_fields (extract_submission [])).length = 14) :=
  ⟨rfl, rfl, rfl,
    C8_document_composition [] (fun _ => none) ⟨2026, 10, 12⟩ (fun _ => 0) none rfl rfl rfl⟩

end InvestorAnalyze
